import Mathlib

/-!
Shallow embedding of `detection_adt/detection.py` (repository MichaelHiebert/utils).

Coordinates are modelled as rationals (`ℚ`), mirroring the Python floats; frame
identifiers as `Nat`; labels as `String`; confidences as `Option ℚ` (Python
`None` ↦ `none`).  Python's `ZeroDivisionError` on float division by zero is
modelled by returning `none` from `iouOpt`; exception propagation through
`matches` and `metrics` is modelled with `Option`/`Except`.
-/

namespace DetectionADT

/-- Embedding of the `BoundingBox` class: the stored fields of an axis-aligned
rectangle tagged with a frame id, a class label and an optional confidence.
`width`/`height` are derived fields (see below). -/
structure BoundingBox where
  frame_id : Nat
  label : String
  tlx : ℚ
  tly : ℚ
  brx : ℚ
  bry : ℚ
  confidence : Option ℚ
deriving DecidableEq, Repr

/-- Embedding of the `BoundingBox` constructor from corner pairs
(`BoundingBox(frame_id, object_label, top_left, bottom_right, confidence)`). -/
def mkBB (f : Nat) (l : String) (tl br : ℚ × ℚ) (c : Option ℚ) : BoundingBox :=
  { frame_id := f, label := l, tlx := tl.1, tly := tl.2, brx := br.1, bry := br.2,
    confidence := c }

/-- `self.width = self.brx - self.tlx` -/
def BoundingBox.width (b : BoundingBox) : ℚ := b.brx - b.tlx

/-- `self.height = self.bry - self.tly` -/
def BoundingBox.height (b : BoundingBox) : ℚ := b.bry - b.tly

/-- The area of a single box, `width * height` (used by `_union`). -/
def BoundingBox.area (b : BoundingBox) : ℚ := b.width * b.height

/-- A well-formed rectangle: top-left is (weakly) above and to the left of
bottom-right.  The Python code never checks this; it is hypothesised where a
claim needs it. -/
def BoundingBox.wf (b : BoundingBox) : Prop := b.tlx ≤ b.brx ∧ b.tly ≤ b.bry

instance (b : BoundingBox) : Decidable b.wf := by unfold BoundingBox.wf; infer_instance

/-- Embedding of `BoundingBox._overlap`: the separating-axis test with
boundary-inclusive comparisons. -/
def overlapB (a b : BoundingBox) : Bool :=
  !(decide (a.tlx > b.brx) || decide (a.brx < b.tlx)) &&
  !(decide (a.tly > b.bry) || decide (a.bry < b.tly))

/-- Embedding of `BoundingBox.related_to`: same label and overlap. -/
def relatedTo (a b : BoundingBox) : Bool :=
  decide (a.label = b.label) && overlapB a b

/-- Embedding of `BoundingBox._intersection`: the clamped intersection area,
with the two early returns of the Python code. -/
def intersectionArea (a b : BoundingBox) : ℚ :=
  let rightestLeft := max a.tlx b.tlx
  let leftestRight := min a.brx b.brx
  if leftestRight < rightestLeft then 0
  else
    let bottomestTop := max a.tly b.tly
    let toppestBottom := min a.bry b.bry
    if bottomestTop > toppestBottom then 0
    else (leftestRight - rightestLeft) * (toppestBottom - bottomestTop)

/-- Embedding of `BoundingBox._union`:
`self.width*self.height + obb.width*obb.height - self._intersection(obb)`. -/
def unionArea (a b : BoundingBox) : ℚ :=
  a.width * a.height + b.width * b.height - intersectionArea a b

/-- Embedding of `BoundingBox.iou` as the bare rational quotient
(`_intersection / _union`); meaningful only when the union area is nonzero. -/
def iouQ (a b : BoundingBox) : ℚ := intersectionArea a b / unionArea a b

/-- Embedding of `BoundingBox.iou` with Python's division semantics made
explicit: float division by a zero union area raises `ZeroDivisionError`,
modelled as `none`. -/
def iouOpt (a b : BoundingBox) : Option ℚ :=
  if unionArea a b = 0 then none else some (iouQ a b)

/-- Embedding of `BoundingBox.matches`: one boolean per candidate, in order;
`related_to` gates the IoU computation.  A `ZeroDivisionError` raised by
`self.iou(obb)` aborts the whole call (`none`). -/
def matchesE (s : BoundingBox) (cs : List BoundingBox) (threshold : ℚ) : Option (List Bool) :=
  match cs with
  | [] => some []
  | c :: rest =>
    if relatedTo s c then
      match iouOpt s c with
      | none => none
      | some v => (matchesE s rest threshold).map fun l => decide (v ≥ threshold) :: l
    else
      (matchesE s rest threshold).map fun l => false :: l

/-- `BoundingBox.matches` with its default argument `threshold=0.5`. -/
def matchesDefault (s : BoundingBox) (cs : List BoundingBox) : Option (List Bool) :=
  matchesE s cs (1/2)

/-! ### The `Detection` class

Python groups boxes in a `dict` keyed by frame id, with insertion order
preserved; we model it as an association list with unique keys, new keys
appended at the end and new boxes appended at the end of their frame's list. -/

/-- A frame-grouped collection (`dict` of frame id ↦ list of boxes). -/
abbrev FrameColl := List (Nat × List BoundingBox)

/-- `dict` membership/lookup: first (unique) entry for a frame id. -/
def lookupFrame (m : FrameColl) (f : Nat) : Option (List BoundingBox) :=
  match m with
  | [] => none
  | (g, l) :: rest => if g = f then some l else lookupFrame rest f

/-- Insertion into a frame-grouped collection, as in
`if frame_id not in d: d[frame_id] = list()` followed by
`d[frame_id].append(bb)`. -/
def insertBB (m : FrameColl) (bb : BoundingBox) : FrameColl :=
  match m with
  | [] => [(bb.frame_id, [bb])]
  | (g, l) :: rest =>
    if g = bb.frame_id then (g, l ++ [bb]) :: rest else (g, l) :: insertBB rest bb

/-- The input shapes the `Detection` constructor documents for each item of
`labels`/`predictions`: a pre-built `BoundingBox`, a flat coordinate tuple, or
a tuple with paired corner tuples (each optionally carrying a confidence). -/
inductive BBInput where
  | prebuilt (bb : BoundingBox)
  | flat (f : Nat) (l : String) (tlx tly brx bry : ℚ) (conf : Option ℚ)
  | paired (f : Nat) (l : String) (tl br : ℚ × ℚ) (conf : Option ℚ)
deriving Repr

/-- Embedding of `Detection._handle_new_bounding_boxes`: only items that are
already a `BoundingBox` are grouped into the dict; every other shape falls
into the `else: pass  # TODO` branch and is silently dropped. -/
def handleNewBoundingBoxes (items : List BBInput) : FrameColl :=
  items.foldl
    (fun acc item =>
      match item with
      | .prebuilt bb => insertBB acc bb
      | _ => acc)
    []

/-- Embedding of the `Detection` object state: `labels` and `predictions` are
each either uninitialized (`None` ↦ `none`) or a frame-grouped collection. -/
structure Detection where
  labels : Option FrameColl
  predictions : Option FrameColl

/-- Embedding of the `Detection` constructor restricted to the
`labels`/`predictions` arguments (the `frames` argument is a `TODO` no-op in
the source). -/
def mkDetection (labels predictions : Option (List BBInput)) : Detection :=
  { labels := labels.map handleNewBoundingBoxes,
    predictions := predictions.map handleNewBoundingBoxes }

/-- Embedding of the argument list accepted by `Detection._handle_bb_args`:
one `BoundingBox`, 4 or 5 positional arguments with paired corners, 6 or 7
flat positional coordinates, or an argument list of any unsupported arity. -/
inductive BBArgs where
  | one (bb : BoundingBox)
  | four (f : Nat) (l : String) (tl br : ℚ × ℚ)
  | five (f : Nat) (l : String) (tl br : ℚ × ℚ) (c : ℚ)
  | six (f : Nat) (l : String) (a b c d : ℚ)
  | seven (f : Nat) (l : String) (a b c d conf : ℚ)
  | badArity (n : Nat)
deriving Repr

/-- Embedding of `Detection._handle_bb_args`: convert any accepted arglist to
a `BoundingBox`; an unsupported arity raises
`RuntimeError('Unable to process BoundingBox arguments!')`. -/
def handleBBArgs (args : BBArgs) : Except String BoundingBox :=
  match args with
  | .one bb => .ok bb
  | .four f l tl br => .ok (mkBB f l tl br none)
  | .five f l tl br c => .ok (mkBB f l tl br (some c))
  | .six f l a b c d => .ok (mkBB f l (a, b) (c, d) none)
  | .seven f l a b c d conf => .ok (mkBB f l (a, b) (c, d) (some conf))
  | .badArity _ => .error "Unable to process BoundingBox arguments!"

/-- Embedding of `Detection.add_label`: initialize `labels` to an empty dict
if absent, then insert; on an exception from argument handling, reset
`labels` to `None` and re-raise (the error carries the message and the
post-failure state). -/
def addLabel (d : Detection) (args : BBArgs) : Except (String × Detection) Detection :=
  match handleBBArgs args with
  | .error e => .error (e, { d with labels := none })
  | .ok bb => .ok { d with labels := some (insertBB (d.labels.getD []) bb) }

/-- Embedding of `Detection.add_prediction`: like `addLabel` but on the
`predictions` collection. -/
def addPrediction (d : Detection) (args : BBArgs) : Except (String × Detection) Detection :=
  match handleBBArgs args with
  | .error e => .error (e, { d with predictions := none })
  | .ok bb => .ok { d with predictions := some (insertBB (d.predictions.getD []) bb) }

/-! ### `Detection.metrics` -/

/-- The confidence filter of `Detection.metrics`:
`pred.confidence == None or pred.confidence >= confidence_threshold`. -/
def confOK (p : BoundingBox) (ct : ℚ) : Bool :=
  match p.confidence with
  | none => true
  | some c => decide (c ≥ ct)

/-- The inner prediction loop of `Detection.metrics` for one frame: threads
the per-label `f_neg` vector and the per-prediction `t_pos` list; a division
error inside `matches` propagates as `none`. -/
def predLoop (lbs : List BoundingBox) (ct it : ℚ) :
    List BoundingBox → List Bool → List Bool → Option (List Bool × List Bool)
  | [], fneg, tpos => some (fneg, tpos)
  | p :: ps, fneg, tpos =>
    if confOK p ct then
      match matchesE p lbs it with
      | none => none
      | some m => predLoop lbs ct it ps (List.zipWith or fneg m) (tpos ++ [m.any id])
    else
      predLoop lbs ct it ps fneg tpos

/-- Per-frame tally of `Detection.metrics`: run the prediction loop and count
true positives, false positives and false negatives for this frame. -/
def frameCounts (lbs preds : List BoundingBox) (ct it : ℚ) : Option (Nat × Nat × Nat) :=
  (predLoop lbs ct it preds (lbs.map fun _ => false) []).map fun r =>
    (r.2.count true, r.2.count false, r.1.count false)

/-- The frame loop of `Detection.metrics`: iterate over the frames of the
labels collection; a frame absent from the predictions contributes all its
labels as false negatives. -/
def countsE (ls : FrameColl) (ps : FrameColl) (ct it : ℚ) : Option (Nat × Nat × Nat) :=
  match ls with
  | [] => some (0, 0, 0)
  | (f, lbs) :: rest =>
    match lookupFrame ps f with
    | none =>
      (countsE rest ps ct it).map fun r => (r.1, r.2.1, r.2.2 + lbs.length)
    | some preds =>
      match frameCounts lbs preds ct it, countsE rest ps ct it with
      | some a, some b => some (a.1 + b.1, a.2.1 + b.2.1, a.2.2 + b.2.2)
      | _, _ => none

/-- Embedding of `Detection.metrics`: precondition errors for missing
labels/predictions, the confidence-filtered per-frame matching, the
`true_pos == 0` degenerate case, and the precision/recall/F-score formulas. -/
def metricsE (d : Detection) (ct it : ℚ) : Except String (ℚ × ℚ × ℚ) :=
  match d.labels with
  | none => .error "There are no labels associated with this detection!"
  | some ls =>
    match d.predictions with
    | none => .error "There are no predictions associated with this detection!"
    | some ps =>
      match countsE ls ps ct it with
      | none => .error "ZeroDivisionError"
      | some (tp, fp, fn) =>
        if tp = 0 then .ok (0, 0, 0)
        else
          let prc : ℚ := (tp : ℚ) / ((tp : ℚ) + (fp : ℚ))
          let rcl : ℚ := (tp : ℚ) / ((tp : ℚ) + (fn : ℚ))
          .ok (prc, rcl, 2 * ((prc * rcl) / (prc + rcl)))

/-! ### `BoundingBoxArray` and the disjoint-box generator

The occupancy grid is embedded for the integer-coordinate path (explicit
`max_width`/`max_height`, no 1000× normalization): cells carry 0 (empty),
1 (existing box) or 2 (newly added box), and numpy slice assignments /
membership tests become rectangle-bounded updates and scans.  Python's global
`random.randint` draws are modelled by an explicit finite stream of naturals
(`rnd : List Nat`), each draw reduced into its range with `%`; exhausting the
stream — or the explicit fuel that bounds the growth loops — yields `none`,
marking a run whose further behaviour depends on randomness not supplied. -/

/-- Embedding of the `BoundingBoxArray` state: grid dimensions and the cell
array (`cells y x` is `self.array[y, x]`). -/
structure BBoxArray where
  width : Nat
  height : Nat
  cells : Nat → Nat → Nat

/-- An integer rectangle `((tlx, tly), (brx, bry))` as fed to the grid. -/
abbrev IRect := (Nat × Nat) × (Nat × Nat)

/-- Numpy slice assignment `array[y0:y1, x0:x1] = v` (half-open ranges; an
empty range is a no-op, as in numpy). -/
def setRect (g : BBoxArray) (y0 y1 x0 x1 v : Nat) : BBoxArray :=
  { g with cells := fun y x =>
      if y0 ≤ y ∧ y < y1 ∧ x0 ≤ x ∧ x < x1 then v else g.cells y x }

/-- `1 in self.array[y0:y1, x]` (a column segment scan). -/
def colHas1 (g : BBoxArray) (y0 y1 x : Nat) : Bool :=
  (List.range' y0 (y1 - y0)).any fun y => g.cells y x == 1

/-- `1 in self.array[y, x0:x1]` (a row segment scan). -/
def rowHas1 (g : BBoxArray) (y x0 x1 : Nat) : Bool :=
  (List.range' x0 (x1 - x0)).any fun x => g.cells y x == 1

/-- Embedding of `BoundingBoxArray._add_bounding_box_to_array` (integer
path): `self.array[tly:bry, tlx:brx] = 1`. -/
def rasterize (g : BBoxArray) (b : IRect) : BBoxArray :=
  setRect g b.1.2 b.2.2 b.1.1 b.2.1 1

/-- Embedding of the `BoundingBoxArray` constructor (integer path with
explicit bounds): start from a zero grid and rasterize every input box. -/
def mkBBoxArray (boxes : List IRect) (w h : Nat) : BBoxArray :=
  boxes.foldl rasterize { width := w, height := h, cells := fun _ _ => 0 }

/-- `random.randint(a, b)` (both ends inclusive) driven by one stream draw. -/
def randint (a b r : Nat) : Nat := a + r % (b - a + 1)

/-- The start-point rejection loop of `_add_disjoint_bounding_box`: draw
`(tlx, tly)` uniformly and redraw while `self.array[tly, tlx] != 0`.  The
Python loop has no bound at all; here it consumes two stream draws per
iteration and reports `none` when the supplied stream runs out. -/
def pickStart (g : BBoxArray) : List Nat → Option (Nat × Nat × List Nat)
  | r1 :: r2 :: rest =>
    let x := randint 0 (g.width - 1) r1
    let y := randint 0 (g.height - 1) r2
    if g.cells y x ≠ 0 then pickStart g rest else some (x, y, rest)
  | _ => none

/-- Result of one growth attempt: a frozen box (with the updated grid and
remaining stream), a collision before minimum size (retry with the remaining
stream), or an exhausted stream/fuel. -/
inductive GrowRes where
  | success (box : IRect) (g : BBoxArray) (rnd : List Nat)
  | collide (rnd : List Nat)
  | stuck

/-- The probabilistic-decay expansion loop of `_add_disjoint_bounding_box`
(the `while random.randint(0,1000) > decay and ...` loop): on exit or on a
collision the rectangle `[tlx:cx) × [tly:cy)` is marked 2 and returned. -/
def decayLoop (g : BBoxArray) (tlx tly : Nat) :
    Nat → Nat → Nat → Nat → List Nat → Option (IRect × BBoxArray × List Nat)
  | _, _, _, _, [] => none
  | 0, _, _, _, _ => none
  | fuel + 1, cx, cy, decay, r :: rest =>
    if randint 0 1000 r > decay ∧ cx < g.width - 1 ∧ cy < g.height - 1 then
      match rest with
      | [] => none
      | c :: rest2 =>
        if randint 0 1 c = 0 then
          if colHas1 g tly cy (cx + 1) then
            some (((tlx, tly), (cx, cy)), setRect g tly cy tlx cx 2, rest2)
          else
            decayLoop g tlx tly fuel (cx + 1) cy (decay + 25) rest2
        else
          if rowHas1 g (cy + 1) tlx cx then
            some (((tlx, tly), (cx, cy)), setRect g tly cy tlx cx 2, rest2)
          else
            decayLoop g tlx tly fuel cx (cy + 1) (decay + 25) rest2
    else
      some (((tlx, tly), (cx, cy)), setRect g tly cy tlx cx 2, rest)

/-- The main growth loop of `_add_disjoint_bounding_box`
(`while should_grow and cur_x < self.width - 1 and cur_y < self.height - 1`),
with its three sub-minimal branches and the decay branch.  `fuel` bounds the
iterations (the sub-minimal single-axis branches consume no randomness). -/
def growLoop (g : BBoxArray) (min0 min1 tlx tly : Nat) :
    Nat → Nat → Nat → Nat → Nat → Nat → List Nat → GrowRes
  | 0, _, _, _, _, _, _ => .stuck
  | fuel + 1, cx, cy, cw, ch, decay, rnd =>
    if cx < g.width - 1 ∧ cy < g.height - 1 then
      if cw < min0 ∧ ch < min1 then
        match rnd with
        | [] => .stuck
        | r :: rest =>
          if randint 0 1 r = 0 then
            if colHas1 g tly cy (cx + 1) then .collide rest
            else growLoop g min0 min1 tlx tly fuel (cx + 1) cy (cw + 1) ch decay rest
          else
            if rowHas1 g (cy + 1) tlx cx then .collide rest
            else growLoop g min0 min1 tlx tly fuel cx (cy + 1) cw (ch + 1) decay rest
      else if cw < min0 then
        if colHas1 g tly cy (cx + 1) then .collide rnd
        else growLoop g min0 min1 tlx tly fuel (cx + 1) cy (cw + 1) ch decay rnd
      else if ch < min1 then
        if rowHas1 g (cy + 1) tlx cx then .collide rnd
        else growLoop g min0 min1 tlx tly fuel cx (cy + 1) cw (ch + 1) decay rnd
      else
        match decayLoop g tlx tly fuel cx cy decay rnd with
        | none => .stuck
        | some (box, g2, rest) => .success box g2 rest
    else
      .collide rnd

/-- Embedding of `BoundingBoxArray._add_disjoint_bounding_box`: with `tries`
exhausted return `False` (`.ok none`); otherwise pick a random empty start
cell and grow; a collision before minimum size retries with `tries - 1`.
The outer `Option` is `none` when the random stream or the growth fuel runs
out (covering, in particular, the unbounded start-point loop). -/
def addDisjointBB (g : BBoxArray) (min0 min1 : Nat) :
    Nat → Nat → List Nat → Nat → Option (Option IRect × BBoxArray × List Nat)
  | _, 0, rnd, _ => some (none, g, rnd)
  | decay, tries + 1, rnd, fuel =>
    match pickStart g rnd with
    | none => none
    | some (tlx, tly, rnd2) =>
      match growLoop g min0 min1 tlx tly fuel tlx tly 0 0 decay rnd2 with
      | .success box g2 rnd3 => some (some box, g2, rnd3)
      | .collide rnd3 => addDisjointBB g min0 min1 decay tries rnd3 fuel
      | .stuck => none

/-- Embedding of `BoundingBoxArray.add_disjoint_boxes` (non-normalized path):
run `_add_disjoint_bounding_box` `num` times, keeping the successful boxes in
order and threading the mutated grid. -/
def addDisjointBoxes (g : BBoxArray) :
    Nat → Nat → Nat → Nat → List Nat → Nat → Option (List IRect × BBoxArray × List Nat)
  | 0, _, _, _, rnd, _ => some ([], g, rnd)
  | num + 1, min0, min1, tries, rnd, fuel =>
    match addDisjointBB g min0 min1 0 tries rnd fuel with
    | none => none
    | some (res, g2, rnd2) =>
      match addDisjointBoxes g2 num min0 min1 tries rnd2 fuel with
      | none => none
      | some (added, g3, rnd3) =>
        match res with
        | none => some (added, g3, rnd3)
        | some box => some (box :: added, g3, rnd3)

/-! ### Concrete scenarios used by the claims -/

/-- The two ground-truth boxes of `test_precision_one_class` on frame 1. -/
def c1Labels : List BBInput :=
  [.prebuilt (mkBB 1 "A" (2, 2) (12, 22) none),
   .prebuilt (mkBB 1 "A" (80, 80) (110, 120) none)]

/-- The three predictions of `test_precision_one_class` on frame 1. -/
def c1Preds : List BBInput :=
  [.prebuilt (mkBB 1 "A" (4, 4) (14, 24) none),
   .prebuilt (mkBB 1 "A" (50, 50) (80, 60) none),
   .prebuilt (mkBB 1 "A" (80, 80) (110, 120) none)]

/-- `Detection(labels=..., predictions=...)` for the metrics scenario. -/
def c1Det : Detection := mkDetection (some c1Labels) (some c1Preds)

/-- A 5×5 occupancy grid holding one existing box `(1,0)-(2,1)` (so the
single cell at row 0, column 1 is occupied). -/
def c2Grid : BBoxArray := mkBBoxArray [((1, 0), (2, 1))] 5 5

/-- A 3×3 occupancy grid fully covered by one existing box `(0,0)-(3,3)`:
every cell is occupied. -/
def c3Grid : BBoxArray := mkBBoxArray [((0, 0), (3, 3))] 3 3

/-- Replace a box's frame id and confidence, keeping geometry and label. -/
def setMeta (bb : BoundingBox) (f : Nat) (c : Option ℚ) : BoundingBox :=
  { bb with frame_id := f, confidence := c }

end DetectionADT

namespace DetectionADT

/-! ### Theorems for the claims -/

/-- C1: with labels `A:(2,2)-(12,22)` and `A:(80,80)-(110,120)` on frame 1
and predictions `A:(4,4)-(14,24)`, `A:(50,50)-(80,60)`, `A:(80,80)-(110,120)`
on frame 1, `Detection.metrics` at confidence threshold `0.5` and IoU
threshold `0.5` returns precision `2/3` and recall `1.0` (and F-score
`4/5`). -/
theorem c1_metrics_scenario :
    metricsE c1Det (1/2) (1/2) = .ok (2/3, 1, 4/5) := by
  norm_num [metricsE, countsE, frameCounts, predLoop, lookupFrame, matchesE, confOK,
    relatedTo, overlapB, iouOpt, iouQ, intersectionArea, unionArea,
    c1Det, c1Labels, c1Preds, mkDetection, handleNewBoundingBoxes, insertBB, mkBB,
    BoundingBox.width, BoundingBox.height]

/-- C2 refutation run: on a 5×5 grid whose only occupied cell is row 0,
column 1 (rasterized from the input box `(1,0)-(2,1)`), with minimum size
`(2,2)` and the all-zero random stream, `add_disjoint_boxes` returns the
single box `(0,0)-(2,2)` — a rectangle of positive intersection area with the
input rectangle, because the sub-minimal growth steps check the occupancy
column/row one past the cells actually absorbed into the rectangle. -/
theorem c2_run_returns_overlapping_box :
    (addDisjointBoxes c2Grid 1 2 2 10 [0, 0, 0, 0, 0] 100).map (fun r => r.1) =
      some [((0, 0), (2, 2))] ∧
    c2Grid.cells 0 1 = 1 ∧
    0 < intersectionArea (mkBB 1 "background" (0, 0) (2, 2) none)
        (mkBB 1 "background" (1, 0) (2, 1) none) :=
  ⟨by decide, by decide, by norm_num [intersectionArea, mkBB]⟩

/-- C4 refutation: the `Detection` constructor's normalization helper
(`_handle_new_bounding_boxes`) silently drops flat-tuple and paired-corner
items (`else: pass  # TODO`), keeping only pre-built `BoundingBox` items, so
the resulting labels collection is empty instead of containing the two
documented tuple-shaped rectangles. -/
theorem c4_constructor_drops_tuples :
    handleNewBoundingBoxes
      [.flat 1 "A" 0 0 1 1 none, .paired 1 "A" (0, 0) (1, 1) (some (1/2))] = [] ∧
    (mkDetection (some [.flat 1 "A" 0 0 1 1 none]) none).labels = some [] ∧
    handleNewBoundingBoxes [.prebuilt (mkBB 1 "A" (0, 0) (1, 1) none)] =
      [(1, [mkBB 1 "A" (0, 0) (1, 1) none])] := by decide

/-- Every cell of the fully covered 3×3 grid holds 1. -/
theorem c3Grid_cells (y x : Nat) (hy : y < 3) (hx : x < 3) : c3Grid.cells y x = 1 := by
  simp [c3Grid, mkBBoxArray, rasterize, setRect, hy, hx]

/-- The fully covered grid has width 3. -/
theorem c3Grid_width : c3Grid.width = 3 := rfl

/-- The fully covered grid has height 3. -/
theorem c3Grid_height : c3Grid.height = 3 := rfl

/-- Uniform draws over the fully covered grid always land inside it. -/
theorem randint_c3_lt (r : Nat) : randint 0 (3 - 1) r < 3 := by
  simp only [randint]
  omega

/-- On the fully covered grid the start-point rejection loop of
`_add_disjoint_bounding_box` rejects every draw: it consumes any finite
random stream without ever finding an empty cell. -/
theorem pickStart_full : ∀ rnd : List Nat, pickStart c3Grid rnd = none
  | [] => rfl
  | [_] => rfl
  | r1 :: r2 :: rest => by
    have h := c3Grid_cells (randint 0 (c3Grid.height - 1) r2)
      (randint 0 (c3Grid.width - 1) r1)
      (by rw [c3Grid_height]; exact randint_c3_lt r2)
      (by rw [c3Grid_width]; exact randint_c3_lt r1)
    simp only [pickStart, h]
    simpa using pickStart_full rest

/-- On the fully covered grid a single `_add_disjoint_bounding_box` call with
a positive retry budget never reaches its growth phase: for every finite
random stream it exhausts the stream inside the start-point loop. -/
theorem addDisjointBB_full (m0 m1 decay tries : Nat) (rnd : List Nat) (fuel : Nat) :
    addDisjointBB c3Grid m0 m1 decay (tries + 1) rnd fuel = none := by
  simp only [addDisjointBB, pickStart_full rnd]

/-- C3 refutation: on an occupancy grid with no empty cell (the fully covered
3×3 grid), `add_disjoint_boxes` with any positive box count and any positive
retry budget never terminates: for every finite stream of random draws and
every growth-fuel bound the embedded run ends in the stream-exhausted state,
because the start-point rejection loop (`while self.array[tly,tlx] != 0`)
rejects every draw and is bounded by neither the retry budget nor the grid
extent. -/
theorem c3_full_grid_never_terminates (n m0 m1 tries fuel : Nat) (rnd : List Nat) :
    addDisjointBoxes c3Grid (n + 1) m0 m1 (tries + 1) rnd fuel = none := by
  simp only [addDisjointBoxes, addDisjointBB_full]

/-- A degenerate first rectangle (zero area) forces a zero intersection
area: the corresponding axis factor of `_intersection` collapses. -/
theorem intersectionArea_zero_left (a b : BoundingBox) (h : a.area = 0) :
    intersectionArea a b = 0 := by
  unfold BoundingBox.area BoundingBox.width BoundingBox.height at h
  simp only [intersectionArea]
  rcases mul_eq_zero.mp h with h1 | h1
  · have hx : a.brx = a.tlx := by linarith
    split_ifs with h2 h3
    · rfl
    · rfl
    · have hle : min a.brx b.brx ≤ max a.tlx b.tlx :=
        le_trans (min_le_left _ _) (hx ▸ le_max_left _ _)
      have hmm : min a.brx b.brx = max a.tlx b.tlx := le_antisymm hle (not_lt.mp h2)
      rw [hmm]; ring
  · have hy : a.bry = a.tly := by linarith
    split_ifs with h2 h3
    · rfl
    · rfl
    · have hle : min a.bry b.bry ≤ max a.tly b.tly :=
        le_trans (min_le_left _ _) (hy ▸ le_max_left _ _)
      have hmm : min a.bry b.bry = max a.tly b.tly :=
        le_antisymm hle (not_lt.mp h3)
      rw [hmm]; ring

/-- C7: whenever the union area is positive, `iou` returns the quotient
`_intersection / _union`; when both rectangles are degenerate (zero area),
the union area is 0 and `iou` raises the division error (`none`). -/
theorem c7_iou_division (a b : BoundingBox) :
    (0 < unionArea a b →
      iouOpt a b = some (intersectionArea a b / unionArea a b)) ∧
    (a.area = 0 → b.area = 0 → unionArea a b = 0 ∧ iouOpt a b = none) := by
  constructor
  · intro h
    unfold iouOpt iouQ
    rw [if_neg (ne_of_gt h)]
  · intro ha hb
    have h0 : unionArea a b = 0 := by
      unfold unionArea
      rw [intersectionArea_zero_left a b ha]
      unfold BoundingBox.area BoundingBox.width BoundingBox.height at ha hb
      unfold BoundingBox.width BoundingBox.height
      linarith
    exact ⟨h0, by unfold iouOpt; rw [if_pos h0]⟩

/-- C7 witness: a unit square against itself has union area 1 and IoU 1,
while two point rectangles have union area 0 and raise the division error. -/
theorem c7_iou_division_witness :
    iouOpt (mkBB 0 "A" (0, 0) (1, 1) none) (mkBB 0 "A" (0, 0) (1, 1) none) =
      some (intersectionArea (mkBB 0 "A" (0, 0) (1, 1) none)
              (mkBB 0 "A" (0, 0) (1, 1) none) /
            unionArea (mkBB 0 "A" (0, 0) (1, 1) none)
              (mkBB 0 "A" (0, 0) (1, 1) none)) ∧
    unionArea (mkBB 0 "A" (3, 3) (3, 3) none) (mkBB 0 "A" (7, 7) (7, 7) none) = 0 ∧
    iouOpt (mkBB 0 "A" (3, 3) (3, 3) none) (mkBB 0 "A" (7, 7) (7, 7) none) = none := by
  refine ⟨(c7_iou_division _ _).1 (by
      norm_num [unionArea, intersectionArea, mkBB, BoundingBox.width,
        BoundingBox.height]), ?_, ?_⟩
  · exact ((c7_iou_division _ _).2
      (by norm_num [BoundingBox.area, BoundingBox.width, BoundingBox.height, mkBB])
      (by norm_num [BoundingBox.area, BoundingBox.width, BoundingBox.height, mkBB])).1
  · exact ((c7_iou_division _ _).2
      (by norm_num [BoundingBox.area, BoundingBox.width, BoundingBox.height, mkBB])
      (by norm_num [BoundingBox.area, BoundingBox.width, BoundingBox.height, mkBB])).2

/-- Swapping the two rectangles leaves `_intersection` unchanged. -/
theorem intersectionArea_comm (a b : BoundingBox) :
    intersectionArea a b = intersectionArea b a := by
  simp only [intersectionArea]
  rw [max_comm b.tlx a.tlx, min_comm b.brx a.brx, max_comm b.tly a.tly,
    min_comm b.bry a.bry]

/-- Swapping the two rectangles leaves `_union` unchanged. -/
theorem unionArea_comm (a b : BoundingBox) : unionArea a b = unionArea b a := by
  unfold unionArea
  rw [intersectionArea_comm a b]
  ring

/-- C8: `intersection_area` is symmetric for all rectangles, and `iou` is
symmetric whenever the union area is nonzero. -/
theorem c8_symmetry (a b : BoundingBox) :
    intersectionArea a b = intersectionArea b a ∧
    (unionArea a b ≠ 0 → iouOpt a b = iouOpt b a) := by
  refine ⟨intersectionArea_comm a b, fun _ => ?_⟩
  unfold iouOpt iouQ
  rw [intersectionArea_comm a b, unionArea_comm a b]

/-- C8 witness: symmetry instantiated on two overlapping unit squares with
nonzero union area. -/
theorem c8_symmetry_witness :
    intersectionArea (mkBB 0 "A" (0, 0) (1, 1) none) (mkBB 0 "A" (0, 0) (2, 2) none) =
      intersectionArea (mkBB 0 "A" (0, 0) (2, 2) none) (mkBB 0 "A" (0, 0) (1, 1) none) ∧
    iouOpt (mkBB 0 "A" (0, 0) (1, 1) none) (mkBB 0 "A" (0, 0) (2, 2) none) =
      iouOpt (mkBB 0 "A" (0, 0) (2, 2) none) (mkBB 0 "A" (0, 0) (1, 1) none) := by
  have h := c8_symmetry (mkBB 0 "A" (0, 0) (1, 1) none) (mkBB 0 "A" (0, 0) (2, 2) none)
  exact ⟨h.1, h.2 (by
    norm_num [unionArea, intersectionArea, mkBB, BoundingBox.width,
      BoundingBox.height])⟩

/-- C5: `matches` maps an ordered candidate list to the equally long ordered
boolean list whose i-th entry is `related_to` AND `iou ≥ threshold`; the
hypothesis only demands a nonzero union area for candidates that pass
`related_to`, because `related_to` gates the IoU computation (an unrelated
degenerate candidate yields `False`, not a division error).  The default
threshold is `0.5`. -/
theorem c5_matches_spec (s : BoundingBox) (cs : List BoundingBox) (t : ℚ)
    (h : ∀ c ∈ cs, relatedTo s c = true → unionArea s c ≠ 0) :
    matchesE s cs t =
      some (cs.map fun c => relatedTo s c && decide (iouQ s c ≥ t)) ∧
    (∀ l, matchesE s cs t = some l → l.length = cs.length) ∧
    matchesDefault s cs = matchesE s cs (1/2) := by
  have hmain : matchesE s cs t =
      some (cs.map fun c => relatedTo s c && decide (iouQ s c ≥ t)) := by
    induction cs with
    | nil => rfl
    | cons c rest ih =>
      have ih2 := ih fun x hx hr => h x (List.mem_cons_of_mem _ hx) hr
      by_cases hr : relatedTo s c = true
      · have hu := h c (List.mem_cons_self _ _) hr
        simp [matchesE, hr, iouOpt, hu, ih2]
      · simp only [Bool.not_eq_true] at hr
        simp [matchesE, hr, ih2]
  refine ⟨hmain, fun l hl => ?_, rfl⟩
  rw [hmain] at hl
  cases hl
  simp

/-- C5 witness: a subject matched against one identical same-label candidate
and one disjoint other-label candidate. -/
theorem c5_matches_spec_witness :
    matchesE (mkBB 0 "A" (0, 0) (2, 2) none)
      [mkBB 0 "A" (0, 0) (2, 2) none, mkBB 0 "B" (5, 5) (6, 6) none] (1/2) =
      some ([mkBB 0 "A" (0, 0) (2, 2) none, mkBB 0 "B" (5, 5) (6, 6) none].map
        fun c => relatedTo (mkBB 0 "A" (0, 0) (2, 2) none) c &&
          decide (iouQ (mkBB 0 "A" (0, 0) (2, 2) none) c ≥ (1/2 : ℚ))) :=
  (c5_matches_spec (mkBB 0 "A" (0, 0) (2, 2) none)
    [mkBB 0 "A" (0, 0) (2, 2) none, mkBB 0 "B" (5, 5) (6, 6) none] (1/2)
    (by
      intro c hc hr
      simp only [List.mem_cons, List.not_mem_nil, or_false] at hc
      rcases hc with hc | hc <;> subst hc <;>
        norm_num [unionArea, intersectionArea, mkBB, BoundingBox.width,
          BoundingBox.height])).1

/-- C6: a failed conversion in `add_label` (resp. `add_prediction`) surfaces
the exception and resets `labels` (resp. `predictions`) to the uninitialized
state, wiping previously inserted entries, so a later `metrics` call fails
with the missing-labels (resp. missing-predictions) precondition error. -/
theorem c6_failed_insert_resets (d : Detection) (args : BBArgs) (e : String)
    (ct it : ℚ) (ls : FrameColl) (h : handleBBArgs args = .error e) :
    addLabel d args = .error (e, { d with labels := none }) ∧
    metricsE { d with labels := none } ct it =
      .error "There are no labels associated with this detection!" ∧
    addPrediction d args = .error (e, { d with predictions := none }) ∧
    (d.labels = some ls →
      metricsE { d with predictions := none } ct it =
        .error "There are no predictions associated with this detection!") := by
  refine ⟨?_, rfl, ?_, fun hl => ?_⟩
  · unfold addLabel; rw [h]
  · unfold addPrediction; rw [h]
  · unfold metricsE
    simp [hl]

/-- C6 witness: a 3-argument insertion attempt on a detection holding one
previously inserted label in each collection. -/
theorem c6_failed_insert_resets_witness :
    addLabel ⟨some [(1, [mkBB 1 "A" (0, 0) (1, 1) none])],
        some [(1, [mkBB 1 "A" (0, 0) (1, 1) none])]⟩ (.badArity 3) =
      .error ("Unable to process BoundingBox arguments!",
        { labels := none, predictions := some [(1, [mkBB 1 "A" (0, 0) (1, 1) none])] }) ∧
    metricsE ⟨none, some [(1, [mkBB 1 "A" (0, 0) (1, 1) none])]⟩ 0 0 =
      .error "There are no labels associated with this detection!" ∧
    addPrediction ⟨some [(1, [mkBB 1 "A" (0, 0) (1, 1) none])],
        some [(1, [mkBB 1 "A" (0, 0) (1, 1) none])]⟩ (.badArity 3) =
      .error ("Unable to process BoundingBox arguments!",
        { labels := some [(1, [mkBB 1 "A" (0, 0) (1, 1) none])], predictions := none }) ∧
    metricsE ⟨some [(1, [mkBB 1 "A" (0, 0) (1, 1) none])], none⟩ 0 0 =
      .error "There are no predictions associated with this detection!" := by
  have h := c6_failed_insert_resets
    ⟨some [(1, [mkBB 1 "A" (0, 0) (1, 1) none])],
      some [(1, [mkBB 1 "A" (0, 0) (1, 1) none])]⟩
    (.badArity 3) "Unable to process BoundingBox arguments!" 0 0
    [(1, [mkBB 1 "A" (0, 0) (1, 1) none])] rfl
  exact ⟨h.1, h.2.1, h.2.2.1, h.2.2.2 rfl⟩

/-- A vector of `False` per label counts every label as a false negative. -/
theorem count_false_const :
    ∀ lbs : List BoundingBox, ((lbs.map fun _ => false).count false) = lbs.length
  | [] => rfl
  | _ :: rest => by simp [count_false_const rest]

/-- A frame with an empty prediction list tallies no true or false positives
and all of its labels as false negatives. -/
theorem frameCounts_nil (lbs : List BoundingBox) (ct it : ℚ) :
    frameCounts lbs [] ct it = some (0, 0, lbs.length) := by
  simp [frameCounts, predLoop, count_false_const]

/-- Replacing an absent frame by a frame with an empty prediction list leaves
the aggregated (TP, FP, FN) counts unchanged. -/
theorem countsE_empty_frame (ps : FrameColl) (f : Nat) (ct it : ℚ)
    (h : lookupFrame ps f = none) :
    ∀ ls : FrameColl, countsE ls ((f, []) :: ps) ct it = countsE ls ps ct it
  | [] => rfl
  | (g, lbs) :: rest => by
    have ih := countsE_empty_frame ps f ct it h rest
    by_cases hg : f = g
    · subst hg
      simp only [countsE, lookupFrame, if_pos rfl, h, ih, frameCounts_nil]
      cases hrest : countsE rest ps ct it with
      | none => rfl
      | some b => simp [frameCounts_nil, Nat.add_comm]
    · have hlook : lookupFrame ((f, []) :: ps) g = lookupFrame ps g := by
        simp [lookupFrame, hg]
      simp only [countsE, hlook, ih]

/-- C10: `metrics` returns the same triple whether a frame maps to an empty
prediction list or is entirely absent from the predictions collection — in
both cases all that frame's labels become false negatives and the frame
contributes no true or false positives. -/
theorem c10_empty_vs_absent (ls ps : FrameColl) (f : Nat) (ct it : ℚ)
    (h : lookupFrame ps f = none) :
    metricsE ⟨some ls, some ((f, []) :: ps)⟩ ct it =
      metricsE ⟨some ls, some ps⟩ ct it := by
  have hc := countsE_empty_frame ps f ct it h ls
  simp only [metricsE, hc]

/-- C10 witness: one labelled frame, compared between an explicitly empty
prediction list for that frame and no predictions entry at all. -/
theorem c10_empty_vs_absent_witness :
    metricsE ⟨some [(1, [mkBB 1 "A" (0, 0) (1, 1) none])], some [(1, [])]⟩ 0 0 =
      metricsE ⟨some [(1, [mkBB 1 "A" (0, 0) (1, 1) none])], some []⟩ 0 0 :=
  c10_empty_vs_absent [(1, [mkBB 1 "A" (0, 0) (1, 1) none])] [] 1 0 0 rfl

/-- C9: overlap, related_to, intersection area, union area and IoU read only
the corner coordinates and (for related_to) the label — replacing either
box's frame id or confidence by arbitrary values changes none of them. -/
theorem c9_metadata_noninterference (a b : BoundingBox) (f1 f2 : Nat)
    (c1 c2 : Option ℚ) :
    overlapB (setMeta a f1 c1) (setMeta b f2 c2) = overlapB a b ∧
    relatedTo (setMeta a f1 c1) (setMeta b f2 c2) = relatedTo a b ∧
    intersectionArea (setMeta a f1 c1) (setMeta b f2 c2) = intersectionArea a b ∧
    unionArea (setMeta a f1 c1) (setMeta b f2 c2) = unionArea a b ∧
    iouOpt (setMeta a f1 c1) (setMeta b f2 c2) = iouOpt a b :=
  ⟨rfl, rfl, rfl, rfl, rfl⟩

end DetectionADT
